import Mathlib

/-!
Shallow embedding of the transcriber service (twilson63/transcriber).

The embedding covers:
* `src/services/transcript.service.ts` — `TranscriptService.getTranscript`:
  videoId validation, the yt-dlp subprocess call (abstracted as an
  environment describing its outcome), JSON3 subtitle parsing, text
  extraction and whitespace normalization, artifact cleanup, and the
  catch-all error collapse;
* `src/middleware/auth.ts` — `authenticateApiKey`;
* `src/middleware/rateLimiter.ts` — `keyGenerator`, `rateLimiterConfig`,
  the custom 429 `handler`, and a fixed-window limiter state;
* `src/index.ts` — the `/api/transcript/:videoId` middleware chain and the
  global error-handling middleware.

Machine-level side effects (filesystem, subprocess, clock) are made
explicit: `getTranscript` takes a `FetchEnv` describing the outcome of the
external command and the state of the artifact file it may have produced,
and returns, alongside its `Except` result, whether the artifact file still
exists and whether removal was attempted.
-/

namespace Transcriber

/-- The ECMAScript whitespace class: the characters matched by `/\s/` in
JavaScript (used by `replace(/\s+/g, ' ')` and by `String.prototype.trim`). -/
def isJsWs (c : Char) : Bool :=
  c == ' ' || c == '\t' || c == '\n' || c == '\r' ||
  c == '\x0b' || c == '\x0c' || c == '\u00A0' || c == '\u1680' ||
  (0x2000 ≤ c.toNat && c.toNat ≤ 0x200A) ||
  c == '\u2028' || c == '\u2029' || c == '\u202F' || c == '\u205F' ||
  c == '\u3000' || c == '\uFEFF'

/-- `collapseWsAux prevWs l`: body of `replace(/\s+/g, ' ')`. `prevWs`
records whether the previous character belonged to a whitespace run that
has already emitted its single replacement space. -/
def collapseWsAux : Bool → List Char → List Char
  | _, [] => []
  | prevWs, c :: rest =>
    if isJsWs c then
      if prevWs then collapseWsAux true rest
      else ' ' :: collapseWsAux true rest
    else c :: collapseWsAux false rest

/-- JavaScript `s.replace(/\s+/g, ' ')`: every maximal run of whitespace
becomes a single space. -/
def collapseWs (l : List Char) : List Char := collapseWsAux false l

/-- JavaScript `String.prototype.trim`: strip leading and trailing
whitespace. -/
def trimWs (l : List Char) : List Char :=
  ((l.dropWhile isJsWs).reverse.dropWhile isJsWs).reverse

/-- `s.replace(/\s+/g, ' ').trim()` from transcript.service.ts line 88. -/
def normalizeString (s : String) : String :=
  String.mk (trimWs (collapseWs s.data))

/-- A character allowed by the regex class `[a-zA-Z0-9_-]`
(transcript.service.ts line 42). -/
def isValidVideoIdChar (c : Char) : Bool :=
  c.isAlphanum || c == '_' || c == '-'

/-- The test `/^[a-zA-Z0-9_-]{11}$/.test(videoId)` from
transcript.service.ts line 42. -/
def isValidVideoId (s : String) : Bool :=
  s.data.length == 11 && s.data.all isValidVideoIdChar

/-- One entry of `segs` in the JSON3 subtitle format: `{ utf8?: string }`. -/
structure JSON3Seg where
  utf8 : Option String
  deriving DecidableEq

/-- One cue event of the JSON3 subtitle format:
`{ tStartMs?: number; dDurationMs?: number; segs?: Array<{utf8?: string}> }`. -/
structure JSON3Event where
  tStartMs : Option Nat := none
  dDurationMs : Option Nat := none
  segs : Option (List JSON3Seg) := none
  deriving DecidableEq

/-- The JSON3 transcript document: `{ events?: JSON3Event[] }`. -/
structure JSON3Transcript where
  events : Option (List JSON3Event) := none
  deriving DecidableEq

/-- The text a segment contributes: pushed only when `seg.utf8` is truthy
(present and nonempty), per `if (seg.utf8) textParts.push(seg.utf8)`. -/
def segText (seg : JSON3Seg) : Option String :=
  match seg.utf8 with
  | some s => if s = "" then none else some s
  | none => none

/-- Body of the inner loop of transcript.service.ts lines 80-84:
`if (seg.utf8) textParts.push(seg.utf8)`. -/
def pushSeg (ps : List String) (seg : JSON3Seg) : List String :=
  match seg.utf8 with
  | some s => if s = "" then ps else ps ++ [s]
  | none => ps

/-- Body of the outer loop of transcript.service.ts lines 78-86:
`if (event.segs) { for (const seg of event.segs) ... }`. -/
def pushEvent (parts : List String) (event : JSON3Event) : List String :=
  match event.segs with
  | some segs => segs.foldl pushSeg parts
  | none => parts

/-- The `textParts` accumulation loop of transcript.service.ts lines 75-86,
written as the nested imperative fold it is in the source: for each event,
if `event.segs` is present, push each truthy `seg.utf8`. -/
def codeTextParts (doc : JSON3Transcript) : List String :=
  (doc.events.getD []).foldl pushEvent []

/-- Declarative description of the same collection: all truthy segment
texts of all events, flattened in document order. -/
def flatSegTexts (doc : JSON3Transcript) : List String :=
  ((doc.events.getD []).map (fun e => (e.segs.getD []).filterMap segText)).flatten

/-- `textParts.join(' ').replace(/\s+/g, ' ').trim()`
(transcript.service.ts line 88): the transcript text the code computes
from a parsed JSON3 document. -/
def codeTranscriptText (doc : JSON3Transcript) : String :=
  normalizeString (String.intercalate " " (codeTextParts doc))

/-- The normalization algorithm as the specification words it (§4.4):
iterate cue events in document order, concatenate each event's text
segments in order with no injected separator within a cue, join
consecutive cues with a single space, then collapse whitespace runs and
trim. -/
def specTranscriptText (doc : JSON3Transcript) : String :=
  normalizeString (String.intercalate " "
    ((doc.events.getD []).map
      (fun e => String.join ((e.segs.getD []).map (fun s => s.utf8.getD "")))))

/-- `hay.includes(needle)` on JavaScript strings: substring containment. -/
def containsSub (needle hay : String) : Bool :=
  hay.data.tails.any (fun t => needle.data.isPrefixOf t)

/-- The metadata the `--print-json` regex match plus `JSON.parse` may yield
(transcript.service.ts lines 58-68); the regex over the raw stdout is
abstracted: `none` stands for no match or a JSON parse failure, in which
case the code keeps its defaults. `title`/`duration` are `Option` because
the parsed object may lack them (JS falsy check). -/
structure VideoInfo where
  title : Option String
  duration : Option Nat
  deriving DecidableEq

/-- `let title = `YouTube Video ${videoId}`` then `title = videoInfo.title || title`. -/
def resolveTitle (videoId : String) : Option VideoInfo → String
  | some vi =>
    match vi.title with
    | some t => if t = "" then "YouTube Video " ++ videoId else t
    | none => "YouTube Video " ++ videoId
  | none => "YouTube Video " ++ videoId

/-- `let duration = 0` then `duration = Math.round(videoInfo.duration || 0)`
(durations are modelled as naturals, on which `Math.round` is the identity). -/
def resolveDuration : Option VideoInfo → Nat
  | some vi => vi.duration.getD 0
  | none => 0

/-- State of the subtitle artifact file after the external command ran:
never written, written but not valid JSON, or written and parsed. -/
inductive ArtifactState
  | absent
  | unparseable
  | parsed (doc : JSON3Transcript)
  deriving DecidableEq

/-- Whether the artifact file is on disk in a given state. -/
def artifactExists : ArtifactState → Bool
  | .absent => false
  | .unparseable => true
  | .parsed _ => true

/-- Outcome of `execAsync(command, { timeout: 30000 })`: the promise
rejected because the 30s wall-clock timeout killed the child, rejected for
any other reason (carrying the error message), or resolved. -/
inductive ExecOutcome
  | timeout (msg : String)
  | execFail (msg : String)
  | completed
  deriving DecidableEq

/-- The external world one `getTranscript` call interacts with: the
subprocess outcome, the metadata parse, the artifact file the subprocess
may have left behind (possible even on timeout or failure), and whether
`unlink` on an existing artifact would fail. -/
structure FetchEnv where
  execOutcome : ExecOutcome
  videoInfo : Option VideoInfo
  artifact : ArtifactState
  unlinkFails : Bool
  deriving DecidableEq

/-- `TranscriptResult` from transcript.service.ts lines 10-15. -/
structure TranscriptResult where
  text : String
  title : String
  duration : Nat
  timestamp : String
  deriving DecidableEq

/-- What one `getTranscript` call produces: its returned value or thrown
error message, whether the artifact file still exists afterwards, and
whether removal of the artifact was attempted on the taken path. -/
structure FetchResult where
  result : Except String TranscriptResult
  fileExists : Bool
  unlinkAttempted : Bool

/-- The catch block's error rewriting (transcript.service.ts lines 113-123):
messages mentioning disabled/missing subtitles or ENOENT are mapped to
"No transcript available" — and so is every other message, by the final
catch-all `throw`. -/
def collapseError (msg : String) : String :=
  if containsSub "Subtitles are disabled" msg
      || containsSub "No subtitles" msg
      || containsSub "ENOENT" msg then
    "No transcript available"
  else
    "No transcript available"

/-- `TranscriptService.getTranscript` (transcript.service.ts lines 34-125):
validate the videoId, run yt-dlp with a 30s timeout, parse metadata, read
and parse the artifact, extract and normalize the text, unlink the
artifact, and reject empty text; the catch block unlinks the artifact
(errors swallowed) and rethrows every failure as "No transcript available". -/
def getTranscript (videoId : String) (env : FetchEnv) (nowIso : String) :
    FetchResult :=
  if isValidVideoId videoId = false then
    -- `throw new Error('Invalid video ID format')` inside the try: the
    -- catch unlinks (the command never ran, so no file exists) and
    -- collapses the error.
    { result := .error (collapseError "Invalid video ID format")
    , fileExists := false
    , unlinkAttempted := true }
  else
    match env.execOutcome with
    | .timeout msg =>
      -- execAsync rejected (timeout): catch unlinks whatever the killed
      -- child left behind, swallowing unlink errors, and collapses.
      { result := .error (collapseError msg)
      , fileExists := artifactExists env.artifact && env.unlinkFails
      , unlinkAttempted := true }
    | .execFail msg =>
      -- execAsync rejected (non-zero exit etc.): same catch path.
      { result := .error (collapseError msg)
      , fileExists := artifactExists env.artifact && env.unlinkFails
      , unlinkAttempted := true }
    | .completed =>
      match env.artifact with
      | .absent =>
        -- `readFile` rejects with ENOENT; the catch's unlink also gets
        -- ENOENT, which is swallowed.
        { result := .error (collapseError "ENOENT: no such file or directory")
        , fileExists := false
        , unlinkAttempted := true }
      | .unparseable =>
        -- `JSON.parse` throws; the catch unlinks the file.
        { result := .error (collapseError "Unexpected token in JSON")
        , fileExists := env.unlinkFails
        , unlinkAttempted := true }
      | .parsed doc =>
        let text := codeTranscriptText doc
        if text = "" then
          -- unlink on the success path (line 91), then
          -- `throw new Error('No transcript available')`, then the catch
          -- unlinks again: the file survives only if unlink fails.
          { result := .error (collapseError "No transcript available")
          , fileExists := env.unlinkFails
          , unlinkAttempted := true }
        else
          { result := .ok
              { text := text
              , title := resolveTitle videoId env.videoInfo
              , duration := resolveDuration env.videoInfo
              , timestamp := nowIso }
          , fileExists := env.unlinkFails
          , unlinkAttempted := true }

/-- A raw HTTP header value as node delivers it to Express: absent, a
single string, or an array of strings. -/
inductive HeaderValue
  | missing
  | str (s : String)
  | arr (l : List String)
  deriving DecidableEq

/-- Body of an HTTP response in this embedding: a JSON error object
`{"error": msg}` or a plain-text payload. -/
inductive RespBody
  | jsonError (msg : String)
  | plainText (t : String)
  deriving DecidableEq

/-- An HTTP response: status code, body, and the Retry-After header when
set. -/
structure HttpResponse where
  status : Nat
  body : RespBody
  retryAfter : Option Nat := none
  deriving DecidableEq

/-- Decision of `authenticateApiKey` (auth.ts lines 6-35). -/
inductive AuthDecision
  | misconfigured
  | unauthorized
  | accepted
  deriving DecidableEq

/-- `authenticateApiKey` (auth.ts): 500 when `process.env.API_KEY` is falsy
(unset or empty); 401 when the presented `X-API-Key` is falsy or not
strictly equal to the secret (an array header value is never `===` a
string); otherwise pass. -/
def authenticateApiKey (apiKey : HeaderValue) (validApiKey : Option String) :
    AuthDecision :=
  if validApiKey = none ∨ validApiKey = some "" then .misconfigured
  else
    match apiKey with
    | .missing => .unauthorized
    | .arr _ => .unauthorized
    | .str s =>
      if s = "" then .unauthorized
      else if some s ≠ validApiKey then .unauthorized
      else .accepted

/-- The HTTP effect of the auth middleware: `some` response when it ends
the request, `none` when it calls `next()`. -/
def authMiddleware (apiKey : HeaderValue) (validApiKey : Option String) :
    Option HttpResponse :=
  match authenticateApiKey apiKey validApiKey with
  | .misconfigured => some { status := 500, body := .jsonError "Internal server error" }
  | .unauthorized => some { status := 401, body := .jsonError "Invalid or missing API key" }
  | .accepted => none

/-- `rateLimiterConfig` (rateLimiter.ts lines 21-26). -/
structure RateLimiterConfig where
  maxRequests : Nat
  windowMs : Nat
  message : String
  statusCode : Nat

/-- The default configuration: 1 request per 30 seconds, 429 on denial. -/
def rateLimiterConfig : RateLimiterConfig :=
  { maxRequests := 1
  , windowMs := 30 * 1000
  , message := "Rate limit exceeded. Please try again later."
  , statusCode := 429 }

/-- `keyGenerator` (rateLimiter.ts lines 33-45): the `x-api-key` header if
it is a string, its first element (or "unknown" when falsy) if an array,
and "unknown" otherwise. -/
def keyGenerator : HeaderValue → String
  | .str s => s
  | .arr l =>
    match l.head? with
    | some h => if h = "" then "unknown" else h
    | none => "unknown"
  | .missing => "unknown"

/-- The custom denial `handler` (rateLimiter.ts lines 52-60): 429 with the
configured message and `Retry-After: Math.ceil(windowMs / 1000)`. -/
def handler : HttpResponse :=
  { status := rateLimiterConfig.statusCode
  , body := .jsonError rateLimiterConfig.message
  , retryAfter := some ((rateLimiterConfig.windowMs + 1000 - 1) / 1000) }

/-- Per-key fixed-window record of the limiter's memory store. -/
structure WindowEntry where
  totalHits : Nat
  resetTime : Nat
  deriving DecidableEq

/-- The limiter's store: one window entry per key. -/
abbrev LimiterState := List (String × WindowEntry)

/-- Insert or replace the entry for a key. -/
def setWindow (st : LimiterState) (k : String) (e : WindowEntry) :
    LimiterState :=
  match st with
  | [] => [(k, e)]
  | (k', e') :: rest =>
    if k' = k then (k, e) :: rest else (k', e') :: setWindow rest k e

/-- The incremented window entry for a key (express-rate-limit memory
store): bump the hit count inside a live window, start a fresh window when
none exists or the old one expired. `now` is epoch milliseconds. -/
def nextWindow (st : LimiterState) (key : String) (now : Nat) : WindowEntry :=
  match st.lookup key with
  | some e =>
    if now < e.resetTime then
      { totalHits := e.totalHits + 1, resetTime := e.resetTime }
    else
      { totalHits := 1, resetTime := now + rateLimiterConfig.windowMs }
  | none => { totalHits := 1, resetTime := now + rateLimiterConfig.windowMs }

/-- One request through the fixed-window limiter: store the incremented
window, then deny with `handler` exactly when the hit count exceeds
`max`. -/
def rateLimiterStep (st : LimiterState) (key : String) (now : Nat) :
    LimiterState × Option HttpResponse :=
  (setWindow st key (nextWindow st key now),
    if rateLimiterConfig.maxRequests < (nextWindow st key now).totalHits then
      some handler
    else none)

/-- The global error-handling middleware (index.ts lines 125-143). -/
def errorMiddleware (msg : String) : HttpResponse :=
  if msg = "No transcript available" then
    { status := 404, body := .jsonError "No transcript available" }
  else if containsSub "timeout" msg || containsSub "ETIMEDOUT" msg then
    { status := 504, body := .jsonError "Request timeout" }
  else
    { status := 500, body := .jsonError "Internal server error" }

/-- JavaScript `videoId.trim()`. -/
def stringTrim (s : String) : String := String.mk (trimWs s.data)

/-- A request to `GET /api/transcript/:videoId`: the `X-API-Key` header and
the matched path parameter. -/
structure Request where
  apiKey : HeaderValue
  videoId : String
  deriving DecidableEq

/-- The `/api/transcript/:videoId` route (index.ts lines 88-117 with the
error middleware of lines 125-143): `authenticateApiKey`, then
`rateLimiter`, then the handler, which 400s an empty or whitespace-only
videoId, calls `getTranscript`, and on success answers 200 with the plain
text; thrown errors go to the global error middleware. Returns the
response and the limiter state after the request. -/
def transcriptRoute (validApiKey : Option String) (st : LimiterState)
    (now : Nat) (req : Request) (env : FetchEnv) (nowIso : String) :
    HttpResponse × LimiterState :=
  match authMiddleware req.apiKey validApiKey with
  | some resp => (resp, st)
  | none =>
    let step := rateLimiterStep st (keyGenerator req.apiKey) now
    match step.2 with
    | some resp => (resp, step.1)
    | none =>
      if req.videoId = "" ∨ stringTrim req.videoId = "" then
        ({ status := 400, body := .jsonError "Video ID is required" }, step.1)
      else
        let fr := getTranscript req.videoId env nowIso
        match fr.result with
        | .ok r => ({ status := 200, body := .plainText r.text }, step.1)
        | .error msg => (errorMiddleware msg, step.1)

/-- No two consecutive characters are both whitespace. -/
def noDoubleWs : List Char → Bool
  | [] => true
  | [_] => true
  | a :: b :: rest => !(isJsWs a && isJsWs b) && noDoubleWs (b :: rest)

/-- The first character, if any, is not whitespace. -/
def headNotWs : List Char → Bool
  | [] => true
  | c :: _ => !isJsWs c

/-- "Already normalized" in the words of the specification: no run of
consecutive whitespace, no leading whitespace, no trailing whitespace. -/
def specAlreadyNormalized (s : String) : Bool :=
  noDoubleWs s.data && headNotWs s.data && headNotWs s.data.reverse

/-- Every whitespace character of the list is the plain space character. -/
def spaceOnlyWs (l : List Char) : Bool :=
  l.all (fun c => !isJsWs c || c == ' ')

/-- "Already normalized" as the code requires it: additionally, every
whitespace character is the plain space character (a lone tab counts as a
whitespace run of length one for `replace(/\s+/g, ' ')` and is rewritten
to a space). -/
def amendedNormalized (s : String) : Bool :=
  spaceOnlyWs s.data && specAlreadyNormalized s

/-- A JSON3 document with one cue event holding the two segments "a" and
"b". -/
def twoSegDoc : JSON3Transcript :=
  { events := some [{ segs := some [{ utf8 := some "a" }, { utf8 := some "b" }] }] }

/-- A JSON3 document with zero cue events. -/
def emptyDoc : JSON3Transcript := { events := some [] }

/-- An environment in which the subprocess exceeded its 30s timeout and
left no artifact behind, and unlink works. -/
def timeoutEnv : FetchEnv :=
  { execOutcome := .timeout "Command failed: yt-dlp"
  , videoInfo := none
  , artifact := .absent
  , unlinkFails := false }

/-- An environment in which the subprocess completed and produced a
parsable artifact containing `twoSegDoc`. -/
def okEnv : FetchEnv :=
  { execOutcome := .completed
  , videoInfo := none
  , artifact := .parsed twoSegDoc
  , unlinkFails := false }

/-!
## Supporting lemmas
-/

/-- Every error message leaving `getTranscript`'s catch block is the same
string: both the matched subtitle/ENOENT messages and the catch-all throw
produce "No transcript available". -/
lemma collapseError_eq (msg : String) :
    collapseError msg = "No transcript available" := by
  unfold collapseError
  split <;> rfl

/-- Folding `pushSeg` over a segment list appends exactly the truthy
segment texts. -/
lemma foldl_pushSeg_eq (segs : List JSON3Seg) (acc : List String) :
    segs.foldl pushSeg acc = acc ++ segs.filterMap segText := by
  induction segs generalizing acc with
  | nil => simp
  | cons h t ih =>
    cases hu : h.utf8 with
    | none => simp [List.foldl_cons, pushSeg, hu, segText, ih]
    | some s =>
      by_cases hs : s = "" <;>
        simp [List.foldl_cons, pushSeg, hu, hs, segText, ih]

/-- Folding `pushEvent` over an event list appends the flattened truthy
segment texts of all events. -/
lemma foldl_pushEvent_eq (events : List JSON3Event) (acc : List String) :
    events.foldl pushEvent acc =
      acc ++ (events.map (fun e => (e.segs.getD []).filterMap segText)).flatten := by
  induction events generalizing acc with
  | nil => simp
  | cons e t ih =>
    cases hs : e.segs with
    | none => simp [List.foldl_cons, pushEvent, hs, ih]
    | some segs => simp [List.foldl_cons, pushEvent, hs, foldl_pushSeg_eq, ih]

/-- The imperative `textParts` loop collects exactly the flattened truthy
segment texts. -/
lemma codeTextParts_eq_flatSegTexts (doc : JSON3Transcript) :
    codeTextParts doc = flatSegTexts doc := by
  unfold codeTextParts flatSegTexts
  simpa using foldl_pushEvent_eq (doc.events.getD []) []

/-- When the list starts with a non-whitespace character (or is empty),
the collapse automaton behaves the same in both states. -/
lemma collapseWsAux_true_of_headNotWs (l : List Char)
    (h : headNotWs l = true) :
    collapseWsAux true l = collapseWsAux false l := by
  cases l with
  | nil => rfl
  | cons c rest =>
    simp only [headNotWs, Bool.not_eq_true'] at h
    simp [collapseWsAux, h]

/-- `noDoubleWs` restricted to the tail, plus: after a whitespace head the
next character is not whitespace. -/
lemma noDoubleWs_cons (c : Char) (rest : List Char)
    (h : noDoubleWs (c :: rest) = true) :
    noDoubleWs rest = true ∧ (isJsWs c = true → headNotWs rest = true) := by
  cases rest with
  | nil => simp [noDoubleWs, headNotWs]
  | cons b t =>
    simp only [noDoubleWs, Bool.and_eq_true, Bool.not_eq_true',
      Bool.and_eq_false_iff] at h
    refine ⟨h.2, fun hc => ?_⟩
    simp only [headNotWs, Bool.not_eq_true']
    rcases h.1 with h1 | h1
    · exact absurd hc (by simp [h1])
    · exact h1

/-- On a list whose whitespace is only single plain spaces, collapsing
whitespace runs is the identity. -/
lemma collapseWs_eq_self (l : List Char)
    (hsp : spaceOnlyWs l = true) (hnd : noDoubleWs l = true) :
    collapseWs l = l := by
  unfold collapseWs
  induction l with
  | nil => rfl
  | cons c rest ih =>
    obtain ⟨hndRest, hAfter⟩ := noDoubleWs_cons c rest hnd
    simp only [spaceOnlyWs, List.all_cons, Bool.and_eq_true] at hsp
    by_cases hw : isJsWs c = true
    · have hc : c = ' ' := by
        rcases Bool.or_eq_true_iff.mp hsp.1 with h1 | h1
        · exact absurd hw (by simp at h1; simp [h1])
        · exact (beq_iff_eq.mp h1)
      have hrest : collapseWsAux true rest = rest := by
        rw [collapseWsAux_true_of_headNotWs rest (hAfter hw)]
        exact ih hsp.2 hndRest
      subst hc
      simp [collapseWsAux, hw, hrest]
    · have : collapseWsAux false rest = rest := ih hsp.2 hndRest
      simp [collapseWsAux, hw, this]

/-- Dropping leading whitespace from a list that has none is the
identity. -/
lemma dropWhile_eq_self_of_headNotWs (l : List Char)
    (h : headNotWs l = true) :
    l.dropWhile isJsWs = l := by
  cases l with
  | nil => rfl
  | cons c rest =>
    simp only [headNotWs, Bool.not_eq_true'] at h
    simp [List.dropWhile_cons, h]

/-- Trimming a list with no leading and no trailing whitespace is the
identity. -/
lemma trimWs_eq_self (l : List Char)
    (hh : headNotWs l = true) (ht : headNotWs l.reverse = true) :
    trimWs l = l := by
  unfold trimWs
  rw [dropWhile_eq_self_of_headNotWs l hh,
    dropWhile_eq_self_of_headNotWs l.reverse ht, List.reverse_reverse]

/-- Status and body of the auth middleware when the secret is configured
but the presented header is not exactly that string. -/
lemma authMiddleware_unauthorized (apiKey : HeaderValue) (s : String)
    (hs : s ≠ "") (hne : apiKey ≠ .str s) :
    authMiddleware apiKey (some s) =
      some { status := 401, body := .jsonError "Invalid or missing API key" } := by
  unfold authMiddleware authenticateApiKey
  have hcfg : ¬((some s : Option String) = none ∨ (some s : Option String) = some "") := by
    simp [hs]
  rw [if_neg hcfg]
  cases apiKey with
  | missing => rfl
  | arr l => rfl
  | str t =>
    have hts : t ≠ s := fun h => hne (by rw [h])
    by_cases ht : t = ""
    · simp [ht]
    · simp [ht, hts]

/-!
## C1 — fetch timeout classification
-/

/-- C1: the claim states that a subprocess timeout is classified as
Timeout and answered 504 with `{"error":"Request timeout"}`. On the code,
the service's catch block rethrows the timeout as "No transcript
available", so the pipeline answers 404, not 504: a concrete timed-out
request is refuted here. -/
theorem C1_counterexample :
    (transcriptRoute (some "secret") [] 0
        { apiKey := .str "secret", videoId := "dQw4w9WgXcQ" }
        timeoutEnv "2026-01-01T00:00:00.000Z").1 =
      { status := 404, body := .jsonError "No transcript available" }
    ∧ (transcriptRoute (some "secret") [] 0
        { apiKey := .str "secret", videoId := "dQw4w9WgXcQ" }
        timeoutEnv "2026-01-01T00:00:00.000Z").1.status ≠ 504 := by
  constructor
  · decide
  · decide

/-- C1 (amended): for every request whose external fetch fails because the
subprocess exceeded its hard timeout, `getTranscript` rethrows the failure
as "No transcript available", which the error middleware maps to 404
`{"error":"No transcript available"}` — the 504 branch is unreachable for
failures propagated by the service. -/
theorem C1_amended (videoId : String) (env : FetchEnv) (nowIso msg : String)
    (h : env.execOutcome = .timeout msg) :
    (getTranscript videoId env nowIso).result = .error "No transcript available"
    ∧ errorMiddleware "No transcript available" =
        { status := 404, body := .jsonError "No transcript available" } := by
  refine ⟨?_, by decide⟩
  unfold getTranscript
  by_cases hv : isValidVideoId videoId = false
  · simp [hv, collapseError_eq]
  · simp [hv, h, collapseError_eq]

/-- C1 witness: the amended statement at a concrete timed-out request. -/
theorem C1_witness :
    timeoutEnv.execOutcome = .timeout "Command failed: yt-dlp"
    ∧ ((getTranscript "dQw4w9WgXcQ" timeoutEnv "t").result =
          .error "No transcript available"
        ∧ errorMiddleware "No transcript available" =
            { status := 404, body := .jsonError "No transcript available" }) :=
  ⟨rfl, C1_amended "dQw4w9WgXcQ" timeoutEnv "t" "Command failed: yt-dlp" rfl⟩

/-!
## C3 — Retry-After on denial
-/

/-- C3: the claim states that the Retry-After value on denial equals the
remaining window time (25 for a second request 5 seconds into a 30-second
window). On the code, the custom handler always answers
`Math.ceil(windowMs / 1000) = 30`: replaying the spec's own scenario —
admit at t = 0 ms, retry at t = 5000 ms — yields Retry-After 30, not 25. -/
theorem C3_counterexample :
    (transcriptRoute (some "secret")
        (transcriptRoute (some "secret") [] 0
          { apiKey := .str "secret", videoId := "dQw4w9WgXcQ" } okEnv "t").2
        5000
        { apiKey := .str "secret", videoId := "dQw4w9WgXcQ" } okEnv "t").1 =
      { status := 429
      , body := .jsonError "Rate limit exceeded. Please try again later."
      , retryAfter := some 30 }
    ∧ (30 : Nat) ≠ 25 := by
  constructor
  · decide
  · decide

/-- C3 (amended): on every denial the Retry-After header equals
`Math.ceil(windowMs / 1000)` — the full 30-second window length —
regardless of how much of the denied key's window has elapsed. -/
theorem C3_amended (st : LimiterState) (key : String) (now : Nat)
    (resp : HttpResponse)
    (h : (rateLimiterStep st key now).2 = some resp) :
    resp.retryAfter = some ((rateLimiterConfig.windowMs + 1000 - 1) / 1000)
    ∧ resp.retryAfter = some 30 := by
  simp only [rateLimiterStep] at h
  split at h
  · simp only [Option.some.injEq] at h
    subst h
    exact ⟨rfl, rfl⟩
  · cases h

/-- C3 witness: the amended statement on a denial 5 seconds into an
existing window. -/
theorem C3_witness :
    (rateLimiterStep [("k", { totalHits := 1, resetTime := 30000 })] "k" 5000).2 =
      some handler
    ∧ (handler.retryAfter = some ((rateLimiterConfig.windowMs + 1000 - 1) / 1000)
        ∧ handler.retryAfter = some 30) :=
  ⟨by decide,
    C3_amended [("k", { totalHits := 1, resetTime := 30000 })] "k" 5000 handler
      (by decide)⟩

/-!
## C4 — normalization algorithm
-/

/-- C4: the claim states that segments within one cue are concatenated
with no injected separator. On the code, `textParts.join(' ')` inserts a
space between every pair of collected segments, within a cue as well: on
a document with one cue holding segments "a" and "b", the spec's algorithm
yields "ab" but the code yields "a b". -/
theorem C4_counterexample :
    specTranscriptText twoSegDoc = "ab"
    ∧ codeTranscriptText twoSegDoc = "a b"
    ∧ specTranscriptText twoSegDoc ≠ codeTranscriptText twoSegDoc := by
  refine ⟨by decide, by decide, by decide⟩

/-- C4 (amended): the normalized text equals the result of collecting all
truthy segment texts of all cue events in document order, joining all of
them — within a cue as well as between cues — with a single space, then
collapsing every whitespace run to one space and trimming. -/
theorem C4_amended (doc : JSON3Transcript) :
    codeTranscriptText doc =
      normalizeString (String.intercalate " " (flatSegTexts doc)) := by
  unfold codeTranscriptText
  rw [codeTextParts_eq_flatSegTexts]

/-!
## C2 — malformed videoId handling
-/

/-- C2: the claim states that a malformed videoId (not exactly 11
characters from `[A-Za-z0-9_-]`) yields 400, decided before
authentication and admission. On the code, for videoId "abc" with a valid
credential the response is 404 (the service's format error is collapsed
to "No transcript available"), the limiter state is touched, and with a
missing credential the same malformed request yields 401: authentication
is decided first. -/
theorem C2_counterexample :
    (transcriptRoute (some "secret") [] 0
        { apiKey := .str "secret", videoId := "abc" } timeoutEnv "t").1 =
      { status := 404, body := .jsonError "No transcript available" }
    ∧ (transcriptRoute (some "secret") [] 0
        { apiKey := .str "secret", videoId := "abc" } timeoutEnv "t").1.status ≠ 400
    ∧ (transcriptRoute (some "secret") [] 0
        { apiKey := .str "secret", videoId := "abc" } timeoutEnv "t").2 ≠ []
    ∧ (transcriptRoute (some "secret") [] 0
        { apiKey := .missing, videoId := "abc" } timeoutEnv "t").1.status = 401 := by
  refine ⟨by decide, by decide, by decide, by decide⟩

/-- C2 (amended): structural validation runs after authentication and
admission. For a request that passed both, a malformed videoId yields 400
`{"error":"Video ID is required"}` only when it is empty or
whitespace-only; every other malformed videoId is rejected by the
service's format check and surfaces as 404
`{"error":"No transcript available"}`. -/
theorem C2_amended (validApiKey : Option String) (st : LimiterState)
    (now : Nat) (req : Request) (env : FetchEnv) (nowIso : String)
    (hAuth : authMiddleware req.apiKey validApiKey = none)
    (hAdmit : (rateLimiterStep st (keyGenerator req.apiKey) now).2 = none)
    (hMal : isValidVideoId req.videoId = false) :
    (transcriptRoute validApiKey st now req env nowIso).1 =
      (if req.videoId = "" ∨ stringTrim req.videoId = "" then
        { status := 400, body := .jsonError "Video ID is required" }
      else
        { status := 404, body := .jsonError "No transcript available" }) := by
  unfold transcriptRoute
  rw [hAuth]
  simp only [hAdmit]
  split
  · rfl
  · simp [getTranscript, hMal, collapseError_eq, errorMiddleware]

/-- C2 witness: the amended statement on a concrete authenticated,
admitted request with videoId "abc". -/
theorem C2_witness :
    authMiddleware (HeaderValue.str "secret") (some "secret") = none
    ∧ (rateLimiterStep [] (keyGenerator (HeaderValue.str "secret")) 0).2 = none
    ∧ isValidVideoId "abc" = false
    ∧ (transcriptRoute (some "secret") [] 0
          { apiKey := .str "secret", videoId := "abc" } timeoutEnv "t").1 =
        (if ("abc" : String) = "" ∨ stringTrim "abc" = "" then
          { status := 400, body := .jsonError "Video ID is required" }
        else
          { status := 404, body := .jsonError "No transcript available" }) :=
  ⟨by decide, by decide, by decide,
    C2_amended (some "secret") [] 0
      { apiKey := .str "secret", videoId := "abc" } timeoutEnv "t"
      (by decide) (by decide) (by decide)⟩

/-!
## C5 — artifact cleanup
-/

/-- C5: for every invocation of `getTranscript` and every outcome —
success, no captions, parse failure, subprocess error, timeout, invalid
id — removal of the ephemeral artifact is attempted on the taken exit
path, and (when unlinking an existing file succeeds, failures being
swallowed) the artifact does not exist on disk after the call returns. -/
theorem C5_cleanup (videoId : String) (env : FetchEnv) (nowIso : String)
    (h : env.unlinkFails = false) :
    (getTranscript videoId env nowIso).fileExists = false
    ∧ (getTranscript videoId env nowIso).unlinkAttempted = true := by
  obtain ⟨eo, vi, art, uf⟩ := env
  simp only at h
  subst h
  unfold getTranscript
  by_cases hv : isValidVideoId videoId = false
  · simp [hv]
  · cases eo with
    | timeout msg => cases art <;> simp [hv, artifactExists]
    | execFail msg => cases art <;> simp [hv, artifactExists]
    | completed =>
      cases art with
      | absent => simp [hv]
      | unparseable => simp [hv]
      | parsed doc =>
        by_cases ht : codeTranscriptText doc = "" <;> simp [hv, ht]

/-- C5 witness: cleanup at a concrete timed-out request whose killed
subprocess left an unparseable artifact behind. -/
theorem C5_witness :
    ({ execOutcome := .timeout "x", videoInfo := none
     , artifact := .unparseable, unlinkFails := false } : FetchEnv).unlinkFails = false
    ∧ ((getTranscript "dQw4w9WgXcQ"
          { execOutcome := .timeout "x", videoInfo := none
          , artifact := .unparseable, unlinkFails := false } "t").fileExists = false
        ∧ (getTranscript "dQw4w9WgXcQ"
            { execOutcome := .timeout "x", videoInfo := none
            , artifact := .unparseable, unlinkFails := false } "t").unlinkAttempted = true) :=
  ⟨rfl,
    C5_cleanup "dQw4w9WgXcQ"
      { execOutcome := .timeout "x", videoInfo := none
      , artifact := .unparseable, unlinkFails := false } "t" rfl⟩

/-!
## C6 — authentication gate
-/

/-- C6: when the service secret is unconfigured (unset, or set to the
empty string, which the code's falsy check treats identically), every
request is answered 500 regardless of the presented credential; when it
is configured, a request whose X-API-Key header is absent or not exactly
string-equal to the secret is answered 401
`{"error":"Invalid or missing API key"}`, and a request presenting
exactly the secret passes the gate. -/
theorem C6_authGate (apiKey : HeaderValue) (validApiKey : Option String) :
    ((validApiKey = none ∨ validApiKey = some "") →
      authMiddleware apiKey validApiKey =
        some { status := 500, body := .jsonError "Internal server error" })
    ∧ (∀ s, validApiKey = some s → s ≠ "" →
        (apiKey ≠ .str s →
          authMiddleware apiKey validApiKey =
            some { status := 401, body := .jsonError "Invalid or missing API key" })
        ∧ (apiKey = .str s → authMiddleware apiKey validApiKey = none)) := by
  constructor
  · intro hcfg
    unfold authMiddleware authenticateApiKey
    rw [if_pos hcfg]
  · intro s hcfg hs
    subst hcfg
    refine ⟨fun hne => authMiddleware_unauthorized apiKey s hs hne, fun heq => ?_⟩
    subst heq
    unfold authMiddleware authenticateApiKey
    have hc : ¬((some s : Option String) = none ∨ (some s : Option String) = some "") := by
      simp [hs]
    rw [if_neg hc]
    simp [hs]

/-- C6 witness: the gate at concrete inputs — unconfigured secret,
mismatched array credential, and the exact secret. -/
theorem C6_witness :
    authMiddleware (.str "x") none =
      some { status := 500, body := .jsonError "Internal server error" }
    ∧ authMiddleware (.arr ["secret"]) (some "secret") =
        some { status := 401, body := .jsonError "Invalid or missing API key" }
    ∧ authMiddleware (.str "secret") (some "secret") = none :=
  ⟨(C6_authGate (.str "x") none).1 (Or.inl rfl),
    ((C6_authGate (.arr ["secret"]) (some "secret")).2 "secret" rfl
      (by decide)).1 (by decide),
    ((C6_authGate (.str "secret") (some "secret")).2 "secret" rfl
      (by decide)).2 rfl⟩

/-!
## C7 — failed authentication leaves the limiter untouched
-/

/-- C7: for every request whose credential is absent or not equal to the
configured secret, the response is 401
`{"error":"Invalid or missing API key"}` and the limiter state after the
request equals the state before it — no window is created or incremented
for any key, because the auth middleware ends the request before the
limiter runs. -/
theorem C7_frame (validApiKey : Option String) (st : LimiterState)
    (now : Nat) (req : Request) (env : FetchEnv) (nowIso : String)
    (s : String) (hcfg : validApiKey = some s) (hs : s ≠ "")
    (hbad : req.apiKey ≠ .str s) :
    (transcriptRoute validApiKey st now req env nowIso).1 =
      { status := 401, body := .jsonError "Invalid or missing API key" }
    ∧ (transcriptRoute validApiKey st now req env nowIso).2 = st := by
  subst hcfg
  have hA := authMiddleware_unauthorized req.apiKey s hs hbad
  unfold transcriptRoute
  rw [hA]
  exact ⟨rfl, rfl⟩

/-- C7 witness: a credential-less request against a nonempty limiter
state: 401, and the state survives unchanged. -/
theorem C7_witness :
    ((some "secret" : Option String) = some "secret")
    ∧ ("secret" : String) ≠ ""
    ∧ HeaderValue.missing ≠ HeaderValue.str "secret"
    ∧ ((transcriptRoute (some "secret")
          [("other", { totalHits := 1, resetTime := 99 })] 0
          { apiKey := .missing, videoId := "dQw4w9WgXcQ" } timeoutEnv "t").1 =
        { status := 401, body := .jsonError "Invalid or missing API key" }
      ∧ (transcriptRoute (some "secret")
          [("other", { totalHits := 1, resetTime := 99 })] 0
          { apiKey := .missing, videoId := "dQw4w9WgXcQ" } timeoutEnv "t").2 =
        [("other", { totalHits := 1, resetTime := 99 })]) :=
  ⟨rfl, by decide, by decide,
    C7_frame (some "secret") [("other", { totalHits := 1, resetTime := 99 })] 0
      { apiKey := .missing, videoId := "dQw4w9WgXcQ" } timeoutEnv "t"
      "secret" rfl (by decide) (by decide)⟩

/-!
## C8 — empty normalization escalates to NotFound
-/

/-- C8: for every authenticated, admitted request with a usable videoId
whose caption document normalizes to the empty string, the response is
404 `{"error":"No transcript available"}`, not a 200 with an empty
body. -/
theorem C8_emptyToNotFound (validApiKey : Option String) (st : LimiterState)
    (now : Nat) (req : Request) (env : FetchEnv) (nowIso : String)
    (doc : JSON3Transcript)
    (hAuth : authMiddleware req.apiKey validApiKey = none)
    (hAdmit : (rateLimiterStep st (keyGenerator req.apiKey) now).2 = none)
    (hvid : stringTrim req.videoId ≠ "")
    (hexec : env.execOutcome = .completed)
    (hart : env.artifact = .parsed doc)
    (hempty : codeTranscriptText doc = "") :
    (transcriptRoute validApiKey st now req env nowIso).1 =
      { status := 404, body := .jsonError "No transcript available" }
    ∧ (transcriptRoute validApiKey st now req env nowIso).1.status ≠ 200 := by
  have hvid' : ¬(req.videoId = "" ∨ stringTrim req.videoId = "") := by
    rintro (h1 | h1)
    · exact hvid (by rw [h1]; rfl)
    · exact hvid h1
  have hroute :
      (transcriptRoute validApiKey st now req env nowIso).1 =
        { status := 404, body := .jsonError "No transcript available" } := by
    unfold transcriptRoute
    rw [hAuth]
    simp only [hAdmit]
    rw [if_neg hvid']
    unfold getTranscript
    by_cases hv : isValidVideoId req.videoId = false
    · simp [hv, collapseError_eq, errorMiddleware]
    · simp [hv, hexec, hart, hempty, collapseError_eq, errorMiddleware]
  refine ⟨hroute, ?_⟩
  rw [hroute]
  decide

/-- C8 witness: a parsed document with zero cue events on an
authenticated, admitted request yields 404. -/
theorem C8_witness :
    authMiddleware (HeaderValue.str "secret") (some "secret") = none
    ∧ (rateLimiterStep [] (keyGenerator (HeaderValue.str "secret")) 0).2 = none
    ∧ stringTrim "dQw4w9WgXcQ" ≠ ""
    ∧ ({ execOutcome := .completed, videoInfo := none
       , artifact := .parsed emptyDoc, unlinkFails := false } : FetchEnv).execOutcome = .completed
    ∧ ({ execOutcome := .completed, videoInfo := none
       , artifact := .parsed emptyDoc, unlinkFails := false } : FetchEnv).artifact = .parsed emptyDoc
    ∧ codeTranscriptText emptyDoc = ""
    ∧ ((transcriptRoute (some "secret") [] 0
          { apiKey := .str "secret", videoId := "dQw4w9WgXcQ" }
          { execOutcome := .completed, videoInfo := none
          , artifact := .parsed emptyDoc, unlinkFails := false } "t").1 =
        { status := 404, body := .jsonError "No transcript available" }
      ∧ (transcriptRoute (some "secret") [] 0
          { apiKey := .str "secret", videoId := "dQw4w9WgXcQ" }
          { execOutcome := .completed, videoInfo := none
          , artifact := .parsed emptyDoc, unlinkFails := false } "t").1.status ≠ 200) :=
  ⟨by decide, by decide, by decide, rfl, rfl, by decide,
    C8_emptyToNotFound (some "secret") [] 0
      { apiKey := .str "secret", videoId := "dQw4w9WgXcQ" }
      { execOutcome := .completed, videoInfo := none
      , artifact := .parsed emptyDoc, unlinkFails := false } "t" emptyDoc
      (by decide) (by decide) (by decide) rfl rfl (by decide)⟩

/-!
## C9 — idempotence on normalized strings
-/

/-- C9: the claim states that any string with no run of consecutive
whitespace and no leading or trailing whitespace is returned unchanged by
normalization. The string "a⟨tab⟩b" satisfies that condition, yet
`replace(/\s+/g, ' ')` rewrites its lone tab — a whitespace run of length
one — to a space, producing "a b". -/
theorem C9_counterexample :
    specAlreadyNormalized "a\tb" = true ∧ normalizeString "a\tb" ≠ "a\tb" := by
  refine ⟨by decide, by decide⟩

/-- C9 (amended): normalization returns unchanged every string that is
already normalized in the code's sense — no run of consecutive
whitespace, no leading or trailing whitespace, and every whitespace
character in it is the plain space character (exactly the strings
normalization itself produces). -/
theorem C9_amended (s : String) (h : amendedNormalized s = true) :
    normalizeString s = s := by
  unfold amendedNormalized specAlreadyNormalized at h
  simp only [Bool.and_eq_true] at h
  obtain ⟨hsp, ⟨hnd, hh⟩, ht⟩ := h
  unfold normalizeString
  rw [collapseWs_eq_self s.data hsp hnd, trimWs_eq_self s.data hh ht]

/-- C9 witness: the amended statement at the already-normalized string
"a b". -/
theorem C9_witness :
    amendedNormalized "a b" = true ∧ normalizeString "a b" = "a b" :=
  ⟨by decide, C9_amended "a b" (by decide)⟩

/-!
## C10 — one shared admission bucket
-/

/-- C10: every request that passes the authentication gate carries an
X-API-Key header exactly equal to the configured secret, so the limiter's
`keyGenerator` maps all admitted traffic to the single bucket keyed by
that secret; the reserved "unknown" bucket is not reachable through the
protected endpoint (whenever the secret itself is not the literal string
"unknown"). -/
theorem C10_sharedBucket (apiKey : HeaderValue) (validApiKey : Option String)
    (h : authMiddleware apiKey validApiKey = none) :
    ∃ s, validApiKey = some s ∧ keyGenerator apiKey = s
      ∧ (s ≠ "unknown" → keyGenerator apiKey ≠ "unknown") := by
  unfold authMiddleware at h
  cases hA : authenticateApiKey apiKey validApiKey with
  | misconfigured => rw [hA] at h; cases h
  | unauthorized => rw [hA] at h; cases h
  | accepted =>
    unfold authenticateApiKey at hA
    split at hA
    · cases hA
    · cases apiKey with
      | missing => cases hA
      | arr l => cases hA
      | str t =>
        simp only at hA
        by_cases hts : t = ""
        · rw [if_pos hts] at hA; cases hA
        · rw [if_neg hts] at hA
          by_cases hne : (some t : Option String) ≠ validApiKey
          · rw [if_pos hne] at hA; cases hA
          · rw [if_neg hne] at hA
            push_neg at hne
            exact ⟨t, hne.symm, rfl, fun h1 h2 => h1 h2⟩

/-- C10 witness: the shared-bucket statement at the concrete secret
"secret". -/
theorem C10_witness :
    authMiddleware (.str "secret") (some "secret") = none
    ∧ ∃ s, (some "secret" : Option String) = some s
        ∧ keyGenerator (.str "secret") = s
        ∧ (s ≠ "unknown" → keyGenerator (.str "secret") ≠ "unknown") :=
  ⟨by decide, C10_sharedBucket (.str "secret") (some "secret") (by decide)⟩

end Transcriber
